import Mathlib

set_option maxRecDepth 100000

/-!
Shallow embedding of the nfs-fuzzer request-definition core
(`src/request_definitions/sunrpc.py` and `src/request_definitions/nfs3.py`).

The Python code builds boofuzz primitive trees (DWord, QWord, Bytes, Size,
Block, Request).  We model a tree node as an inductive `Node`, rendering as
big-endian byte lists (`List Nat`, each entry one byte), and the boofuzz
render contract: a Block concatenates its children's rendered bytes in
declaration order, and a Size field renders `math (byte_length target)`
looked up by name in the whole request tree.
-/

namespace NfsFuzzer

/-! ## Constants (sunrpc.py / nfs3.py) -/

def MSG_TYPE_CALL : Nat := 0
def RPC_VERSION : Nat := 2
def PROG_NFS : Nat := 100003
def AUTH_NONE : Nat := 0
def AUTH_SYS : Nat := 1
def NFS_V3 : Nat := 3
def NFSPROC3_NULL : Nat := 0
def NFSPROC3_LOOKUP : Nat := 3
def NFSPROC3_WRITE : Nat := 7
def FILE_SYNC : Nat := 2
def NFS3_FHSIZE : Nat := 64

/-! ## XDR padding helpers (sunrpc.py lines 55-63) -/

def xdr_pad_length (length : Nat) : Nat := (4 - length % 4) % 4

def xdr_padded_bytes (data : List Nat) : List Nat :=
  data ++ List.replicate (xdr_pad_length data.length) 0

/-! ## Byte encoding: big-endian fixed width, one `Nat` per byte -/

def beBytes : Nat → Nat → List Nat
  | 0, _ => []
  | w + 1, v => beBytes w (v / 256) ++ [v % 256]

def beVal (l : List Nat) : Nat := l.foldl (fun a b => a * 256 + b) 0

/-! ## UTF-8 encoding of strings (Python `str.encode("utf-8")`) -/

def utf8EncodeCharNat (c : Char) : List Nat :=
  let n := c.toNat
  if n < 0x80 then [n]
  else if n < 0x800 then [0xC0 ||| n / 64, 0x80 ||| n % 64]
  else if n < 0x10000 then
    [0xE0 ||| n / 4096, 0x80 ||| (n / 64) % 64, 0x80 ||| n % 64]
  else
    [0xF0 ||| n / 262144, 0x80 ||| (n / 4096) % 64,
     0x80 ||| (n / 64) % 64, 0x80 ||| n % 64]

def utf8Bytes (s : String) : List Nat :=
  (s.data.map utf8EncodeCharNat).flatten

/-! ## The boofuzz primitive tree -/

/-- Transform applied by a Size field to its target's byte length.  The two
transforms used by the source: the identity (plain `Size`) and the
record-marking lambda `0x80000000 | x` (`tcp_record_mark`). -/
inductive SizeMath where
  | ident
  | orLastFrag
deriving DecidableEq, BEq

def applyMath : SizeMath → Nat → Nat
  | .ident, x => x
  | .orLastFrag, x => 0x80000000 ||| x

/-- A boofuzz primitive-tree node: DWord (4-byte big-endian), QWord (8-byte
big-endian), fixed-size Bytes/Static, Size (rendered from a named target's
byte length through a transform), and Block/Request (ordered children). -/
inductive Node where
  | dword (name : String) (value : Nat)
  | qword (name : String) (value : Nat)
  | bytesF (name : String) (value : List Nat) (width : Nat)
  | sizeRef (name : String) (blockName : String) (width : Nat) (math : SizeMath)
  | block (name : String) (children : List Node)

/-! ## Rendering semantics -/

mutual
/-- Rendered byte length of a node: value-independent (Bytes primitives carry
a fixed value of the declared length, Size fields render at their declared
width). -/
def nodeLength : Node → Nat
  | .dword _ _ => 4
  | .qword _ _ => 8
  | .bytesF _ v _ => v.length
  | .sizeRef _ _ w _ => w
  | .block _ cs => nodesLength cs

def nodesLength : List Node → Nat
  | [] => 0
  | c :: cs => nodeLength c + nodesLength cs
end

mutual
/-- Look up the rendered byte length of the node named `nm` (depth-first,
first match), as boofuzz resolves a Size field's `block_name`. -/
def findLen (nm : String) : Node → Option Nat
  | .dword n _ => if n = nm then some 4 else none
  | .qword n _ => if n = nm then some 8 else none
  | .bytesF n v _ => if n = nm then some v.length else none
  | .sizeRef n _ w _ => if n = nm then some w else none
  | .block n cs => if n = nm then some (nodesLength cs) else findLenList nm cs

def findLenList (nm : String) : List Node → Option Nat
  | [] => none
  | c :: cs =>
    match findLen nm c with
    | some l => some l
    | none => findLenList nm cs
end

mutual
/-- Render a node against the full request tree `root` (used to resolve Size
targets).  Fails (`none`) exactly when a Size field's target name does not
occur in `root`. -/
def renderNode (root : Node) : Node → Option (List Nat)
  | .dword _ v => some (beBytes 4 v)
  | .qword _ v => some (beBytes 8 v)
  | .bytesF _ v _ => some v
  | .sizeRef _ bn w m =>
    match findLen bn root with
    | some L => some (beBytes w (applyMath m L))
    | none => none
  | .block _ cs => renderList root cs

def renderList (root : Node) : List Node → Option (List Nat)
  | [] => some []
  | c :: cs =>
    match renderNode root c, renderList root cs with
    | some h, some t => some (h ++ t)
    | _, _ => none
end

/-- Render a complete request: the request itself is the root tree that Size
references are resolved against. -/
def renderReq (r : Node) : Option (List Nat) := renderNode r r

/-! ## Message assembly: sunrpc.py builders -/

/-- `tcp_record_mark` (sunrpc.py 71-93): a 4-byte big-endian Size over the
named block, with the last-fragment transform `0x80000000 | x`. -/
def tcp_record_mark (block_name : String) (name : String) : Node :=
  Node.sizeRef name block_name 4 SizeMath.orLastFrag

/-- `auth_none` (sunrpc.py 101-122): AUTH_NONE credentials, four DWords
(cred flavor 0, cred length 0, verf flavor 0, verf length 0). -/
def auth_none (pre : String) : List Node :=
  [ Node.dword (pre ++ "_cred_flavor") AUTH_NONE,
    Node.dword (pre ++ "_cred_length") 0,
    Node.dword (pre ++ "_verf_flavor") AUTH_NONE,
    Node.dword (pre ++ "_verf_length") 0 ]

/-- `auth_sys_block` (sunrpc.py 125-206): AUTH_SYS credentials block with a
Size over the credential body, machine name as XDR string, uid/gid, empty
auxiliary-gid list, and an AUTH_NONE verifier. -/
def auth_sys_block (name : String) (machine_name : String) (uid : Nat)
    (gid : Nat) : Node :=
  let name_bytes := utf8Bytes machine_name
  Node.block name
    [ Node.dword (name ++ "_cred_flavor") AUTH_SYS,
      Node.sizeRef (name ++ "_cred_length") (name ++ "_cred_body") 4
        SizeMath.ident,
      Node.block (name ++ "_cred_body")
        [ Node.dword (name ++ "_stamp") 0,
          Node.dword (name ++ "_machine_len") name_bytes.length,
          Node.bytesF (name ++ "_machine") (xdr_padded_bytes name_bytes)
            (xdr_padded_bytes name_bytes).length,
          Node.dword (name ++ "_uid") uid,
          Node.dword (name ++ "_gid") gid,
          Node.dword (name ++ "_aux_gid_count") 0 ],
      Node.dword (name ++ "_verf_flavor") AUTH_NONE,
      Node.dword (name ++ "_verf_length") 0 ]

/-- The six big-endian uint32 RPC header fields shared by `rpc_call_request`
and `rpc_call_block` (sunrpc.py 262-297 and 345-380): xid, msg_type,
rpc_version, program, version, procedure, in declaration order. -/
def rpc_header (name : String) (program : Nat) (version : Nat)
    (procedure : Nat) (xid : Nat) : List Node :=
  [ Node.dword (name ++ "_xid") xid,
    Node.dword (name ++ "_msg_type") MSG_TYPE_CALL,
    Node.dword (name ++ "_rpc_version") RPC_VERSION,
    Node.dword (name ++ "_program") program,
    Node.dword (name ++ "_version") version,
    Node.dword (name ++ "_procedure") procedure ]

/-- Auth children selected by `auth_type` (sunrpc.py 244-248 and 335-338):
the string "sys" selects AUTH_SYS, any other string selects AUTH_NONE. -/
def auth_children (name : String) (auth_type : String) : List Node :=
  if auth_type = "sys" then [auth_sys_block (name ++ "_auth") "fuzzer" 0 0]
  else auth_none (name ++ "_auth")

/-- `rpc_call_request` (sunrpc.py 214-305): full RPC CALL request — TCP
record mark sizing the rpc_message block, then the rpc_message block holding
the six header DWords, the auth children and the procedure arguments. -/
def rpc_call_request (name : String) (program : Nat) (version : Nat)
    (procedure : Nat) (args_children : List Node) (auth_type : String)
    (xid : Nat) : Node :=
  Node.block name
    [ tcp_record_mark (name ++ "_rpc_message") (name ++ "_record_mark"),
      Node.block (name ++ "_rpc_message")
        (rpc_header name program version procedure xid
          ++ auth_children name auth_type ++ args_children) ]

/-- `rpc_call_block` (sunrpc.py 308-385): same components as
`rpc_call_request` but returned as a children tuple for embedding. -/
def rpc_call_block (name : String) (program : Nat) (version : Nat)
    (procedure : Nat) (args_children : List Node) (auth_type : String)
    (xid : Nat) : List Node :=
  [ tcp_record_mark (name ++ "_rpc_message") (name ++ "_record_mark"),
    Node.block (name ++ "_rpc_message")
      (rpc_header name program version procedure xid
        ++ auth_children name auth_type ++ args_children) ]

/-! ## Message assembly: nfs3.py builders -/

/-- The default file handle (nfs3.py 108-110): 32 bytes of the pattern
`b"\xde\xad\xbe\xef" * 8`. -/
def defaultHandle : List Nat :=
  (List.replicate 8 [0xde, 0xad, 0xbe, 0xef]).flatten

/-- `fhandle3` (nfs3.py 94-130): DWord length prefix holding the unpadded
handle length, then the padded handle bytes.  A `none` handle selects the
default 32-byte pattern. -/
def fhandle3 (name : String) (handle_data : Option (List Nat)) : Node :=
  let hd :=
    match handle_data with
    | none => defaultHandle
    | some d => d
  let padded := xdr_padded_bytes hd
  Node.block name
    [ Node.dword (name ++ "_length") hd.length,
      Node.bytesF (name ++ "_data") padded padded.length ]

/-- `filename3` (nfs3.py 133-166): XDR string — DWord length prefix of the
UTF-8 byte length, then the padded UTF-8 bytes. -/
def filename3 (name : String) (filename : String) : Node :=
  let name_bytes := utf8Bytes filename
  let padded := xdr_padded_bytes name_bytes
  Node.block name
    [ Node.dword (name ++ "_length") name_bytes.length,
      Node.bytesF (name ++ "_data") padded padded.length ]

/-- `dirop3` (nfs3.py 169-190): directory file handle followed by a
filename. -/
def dirop3 (name : String) (handle_data : Option (List Nat))
    (filename : String) : Node :=
  Node.block name
    [ fhandle3 (name ++ "_dir_handle") handle_data,
      filename3 (name ++ "_name") filename ]

/-- `nfs3_null` (nfs3.py 229-240): NULL procedure, no arguments, AUTH_NONE,
default transaction id 1. -/
def nfs3_null : Node :=
  rpc_call_request "NFS3-NULL" PROG_NFS NFS_V3 NFSPROC3_NULL [] "none" 1

/-- `nfs3_lookup` (nfs3.py 262-280): LOOKUP procedure whose single argument
is the dirop3 sub-container named "NFS3-LOOKUP_what". -/
def nfs3_lookup (dir_handle : Option (List Nat)) (filename : String) : Node :=
  rpc_call_request "NFS3-LOOKUP" PROG_NFS NFS_V3 NFSPROC3_LOOKUP
    [dirop3 "NFS3-LOOKUP_what" dir_handle filename] "none" 1

/-- `nfs3_write` (nfs3.py 350-411): WRITE procedure — fhandle3, uint64
offset, uint32 count, uint32 stable mode, then the payload as XDR opaque
(DWord length prefix of the unpadded data, padded data bytes).  The count
field and the payload length prefix are set independently. -/
def nfs3_write (handle_data : Option (List Nat)) (offset : Nat) (count : Nat)
    (stable : Nat) (data : List Nat) : Node :=
  let data_padded := xdr_padded_bytes data
  rpc_call_request "NFS3-WRITE" PROG_NFS NFS_V3 NFSPROC3_WRITE
    [ fhandle3 "NFS3-WRITE_fhandle" handle_data,
      Node.qword "NFS3-WRITE_offset" offset,
      Node.dword "NFS3-WRITE_count" count,
      Node.dword "NFS3-WRITE_stable" stable,
      Node.dword "NFS3-WRITE_data_length" data.length,
      Node.bytesF "NFS3-WRITE_data" data_padded data_padded.length ]
    "none" 1

/-! ## XDR length-prefix decoding (the convention of spec section 8) -/

/-- Decode an XDR opaque per the length-prefix convention: read the 4-byte
big-endian length prefix, then take that many following bytes. -/
def xdrDecode (l : List Nat) : Option (List Nat) :=
  if 4 ≤ l.length then some ((l.drop 4).take (beVal (l.take 4))) else none

/-! ## Helper lemmas -/

theorem beBytes_length (w : Nat) : ∀ v, (beBytes w v).length = w := by
  induction w with
  | zero => intro v; rfl
  | succ w ih => intro v; simp [beBytes, ih]

theorem beVal_append_one (l : List Nat) (b : Nat) :
    beVal (l ++ [b]) = beVal l * 256 + b := by
  simp [beVal, List.foldl_append]

theorem beVal_beBytes (w : Nat) : ∀ v, v < 256 ^ w → beVal (beBytes w v) = v := by
  induction w with
  | zero =>
    intro v hv
    have : v = 0 := by simpa using hv
    simp [this, beBytes, beVal]
  | succ w ih =>
    intro v hv
    have hdiv : v / 256 < 256 ^ w := by
      rw [Nat.div_lt_iff_lt_mul (by norm_num)]
      calc v < 256 ^ (w + 1) := hv
        _ = 256 ^ w * 256 := by rw [Nat.pow_succ]
    rw [beBytes, beVal_append_one, ih _ hdiv]
    omega

theorem ne_self_append (s t : String) (ht : 0 < t.length) : s ≠ s ++ t := by
  intro he
  have hl := congrArg String.length he
  rw [String.length_append] at hl
  omega

theorem append_ne_of_ne (s : String) {a b : String} (h : a ≠ b) :
    s ++ a ≠ s ++ b := by
  intro he
  apply h
  apply String.ext
  have hd := congrArg String.data he
  rw [String.data_append, String.data_append] at hd
  exact List.append_cancel_left hd

theorem renderList_append (root : Node) (xs ys : List Node) :
    renderList root (xs ++ ys)
      = match renderList root xs, renderList root ys with
        | some a, some b => some (a ++ b)
        | _, _ => none := by
  induction xs with
  | nil =>
    cases hys : renderList root ys <;> simp [renderList, hys]
  | cons c cs ih =>
    rw [List.cons_append]
    simp only [renderList, ih]
    cases renderNode root c <;> cases renderList root cs <;>
      cases renderList root ys <;> simp

/-- The record mark of an `rpc_call_request` resolves against the
rpc_message block: its name differs from the request name and from the
record-mark name, so lookup lands on the message block's byte length. -/
theorem findLen_rpc_message (name : String) (program version procedure xid : Nat)
    (args : List Node) (auth_type : String) :
    findLen (name ++ "_rpc_message")
        (rpc_call_request name program version procedure args auth_type xid)
      = some (nodesLength (rpc_header name program version procedure xid
          ++ auth_children name auth_type ++ args)) := by
  have e1 : name ≠ name ++ "_rpc_message" := ne_self_append _ _ (by decide)
  have e2 : name ++ "_record_mark" ≠ name ++ "_rpc_message" :=
    append_ne_of_ne _ (by decide)
  simp [rpc_call_request, findLen, findLenList, tcp_record_mark, e1, e2]

/-- Rendering an `rpc_call_request` against any root that resolves its
record-mark target: record mark, then the six header fields in declaration
order, then the rendered auth and argument children. -/
theorem renderNode_rpc_call_shape (root : Node) (name : String)
    (program version procedure xid : Nat) (args : List Node)
    (auth_type : String) (L : Nat)
    (hfind : findLen (name ++ "_rpc_message") root = some L) :
    renderNode root
        (rpc_call_request name program version procedure args auth_type xid)
      = match renderList root (auth_children name auth_type ++ args) with
        | some rest => some (beBytes 4 (0x80000000 ||| L)
            ++ ((beBytes 4 xid ++ beBytes 4 MSG_TYPE_CALL
              ++ beBytes 4 RPC_VERSION ++ beBytes 4 program
              ++ beBytes 4 version ++ beBytes 4 procedure) ++ rest))
        | none => none := by
  cases hrest : renderList root (auth_children name auth_type ++ args) <;>
    simp [rpc_call_request, renderNode, renderList, tcp_record_mark, applyMath,
      hfind, renderList_append, rpc_header, List.append_assoc, hrest]

/-! ## Same-shape trees (leaf values replaced, byte lengths kept) -/

mutual
/-- Two trees have the same shape when they differ only in leaf values of
identical rendered byte length: same constructors, same names, same
declared widths, same Size targets and transforms, and Bytes values of
equal length. -/
def sameShape : Node → Node → Bool
  | .dword n _, .dword n2 _ => n == n2
  | .qword n _, .qword n2 _ => n == n2
  | .bytesF n v w, .bytesF n2 v2 w2 =>
    n == n2 && v.length == v2.length && w == w2
  | .sizeRef n b w m, .sizeRef n2 b2 w2 m2 =>
    n == n2 && b == b2 && w == w2 && m == m2
  | .block n cs, .block n2 cs2 => n == n2 && sameShapeList cs cs2
  | _, _ => false

def sameShapeList : List Node → List Node → Bool
  | [], [] => true
  | c :: cs, d :: ds => sameShape c d && sameShapeList cs ds
  | _, _ => false
end

mutual
theorem sameShape_nodeLength : ∀ a b, sameShape a b = true →
    nodeLength a = nodeLength b
  | .dword _ _, b, h => by cases b <;> simp_all [sameShape, nodeLength]
  | .qword _ _, b, h => by cases b <;> simp_all [sameShape, nodeLength]
  | .bytesF _ _ _, b, h => by cases b <;> simp_all [sameShape, nodeLength]
  | .sizeRef _ _ _ _, b, h => by cases b <;> simp_all [sameShape, nodeLength]
  | .block _ cs, b, h => by
    cases b with
    | block n2 cs2 =>
      simp only [sameShape, Bool.and_eq_true, beq_iff_eq] at h
      simp [nodeLength, sameShapeList_nodesLength cs cs2 h.2]
    | dword n2 v2 => simp [sameShape] at h
    | qword n2 v2 => simp [sameShape] at h
    | bytesF n2 v2 w2 => simp [sameShape] at h
    | sizeRef n2 b2 w2 m2 => simp [sameShape] at h

theorem sameShapeList_nodesLength : ∀ cs ds, sameShapeList cs ds = true →
    nodesLength cs = nodesLength ds
  | [], [], _ => rfl
  | [], _ :: _, h => by simp [sameShapeList] at h
  | _ :: _, [], h => by simp [sameShapeList] at h
  | c :: cs, d :: ds, h => by
    simp only [sameShapeList, Bool.and_eq_true] at h
    simp [nodesLength, sameShape_nodeLength c d h.1,
      sameShapeList_nodesLength cs ds h.2]
end

mutual
theorem sameShape_findLen (nm : String) : ∀ a b, sameShape a b = true →
    findLen nm a = findLen nm b
  | .dword _ _, b, h => by cases b <;> simp_all [sameShape, findLen]
  | .qword _ _, b, h => by cases b <;> simp_all [sameShape, findLen]
  | .bytesF _ _ _, b, h => by cases b <;> simp_all [sameShape, findLen]
  | .sizeRef _ _ _ _, b, h => by cases b <;> simp_all [sameShape, findLen]
  | .block _ cs, b, h => by
    cases b with
    | block n2 cs2 =>
      simp only [sameShape, Bool.and_eq_true, beq_iff_eq] at h
      obtain ⟨hn, hcs⟩ := h
      subst hn
      simp [findLen, sameShapeList_nodesLength cs cs2 hcs,
        sameShapeList_findLen nm cs cs2 hcs]
    | dword n2 v2 => simp [sameShape] at h
    | qword n2 v2 => simp [sameShape] at h
    | bytesF n2 v2 w2 => simp [sameShape] at h
    | sizeRef n2 b2 w2 m2 => simp [sameShape] at h

theorem sameShapeList_findLen (nm : String) : ∀ cs ds,
    sameShapeList cs ds = true → findLenList nm cs = findLenList nm ds
  | [], [], _ => rfl
  | [], _ :: _, h => by simp [sameShapeList] at h
  | _ :: _, [], h => by simp [sameShapeList] at h
  | c :: cs, d :: ds, h => by
    simp only [sameShapeList, Bool.and_eq_true] at h
    rw [findLenList, findLenList, sameShape_findLen nm c d h.1,
      sameShapeList_findLen nm cs ds h.2]
end

/-! ## Claim theorems -/

/-- C1: rendering the request returned by `nfs3_null` with its default
transaction id 1 yields a byte sequence whose RPC body (everything after
the 4-byte record mark) is exactly 40 bytes long, and whose first 4 bytes
are the big-endian encoding of `0x80000028`. -/
theorem C1_nfs3_null_render :
    (renderReq nfs3_null).isSome = true
    ∧ (((renderReq nfs3_null).getD []).drop 4).length = 40
    ∧ ((renderReq nfs3_null).getD []).take 4 = beBytes 4 0x80000028 := by
  decide

/-- C2: for every RPC-body byte length `L < 2^31`, the TCP record mark
renders to the 4-byte big-endian encoding of `0x80000000 ||| L`, that value
has most-significant bit (bit 31) set, and the 4-byte encoding is exact. -/
theorem C2_record_mark (root : Node) (bn nm : String) (L : Nat)
    (hfind : findLen bn root = some L) (hL : L < 2 ^ 31) :
    renderNode root (tcp_record_mark bn nm)
      = some (beBytes 4 (0x80000000 ||| L))
    ∧ Nat.testBit (0x80000000 ||| L) 31 = true
    ∧ beVal (beBytes 4 (0x80000000 ||| L)) = 0x80000000 ||| L := by
  refine ⟨?_, ?_, ?_⟩
  · simp [tcp_record_mark, renderNode, hfind, applyMath]
  · rw [Nat.testBit_lor]
    have h1 : Nat.testBit 0x80000000 31 = true := by
      have h2 : (0x80000000 : Nat) = 2 ^ 31 := by norm_num
      rw [h2]; exact Nat.testBit_two_pow_self
    simp [h1]
  · apply beVal_beBytes
    have hlt : (0x80000000 : Nat) ||| L < 2 ^ 32 :=
      Nat.or_lt_two_pow (by norm_num) (by omega)
    have h256 : (256 : Nat) ^ 4 = 2 ^ 32 := by norm_num
    omega

/-- Witness for C2 at the concrete root `nfs3_null`, whose rpc_message
block has byte length 40. -/
theorem C2_record_mark_witness :
    findLen "NFS3-NULL_rpc_message" nfs3_null = some 40
    ∧ (40 : Nat) < 2 ^ 31
    ∧ renderNode nfs3_null
        (tcp_record_mark "NFS3-NULL_rpc_message" "NFS3-NULL_record_mark")
      = some (beBytes 4 (0x80000000 ||| 40)) := by
  refine ⟨by decide, by decide, ?_⟩
  exact (C2_record_mark nfs3_null "NFS3-NULL_rpc_message"
    "NFS3-NULL_record_mark" 40 (by decide) (by decide)).1

/-- C5: `xdr_pad_length n` is one of 0, 1, 2, 3 and `n + xdr_pad_length n`
is a multiple of 4; consequently `xdr_padded_bytes b` has length a multiple
of 4 and consists of exactly `b` followed only by zero bytes. -/
theorem C5_xdr_padding (n : Nat) (b : List Nat) :
    (xdr_pad_length n = 0 ∨ xdr_pad_length n = 1 ∨ xdr_pad_length n = 2 ∨
      xdr_pad_length n = 3)
    ∧ (n + xdr_pad_length n) % 4 = 0
    ∧ (xdr_padded_bytes b).length % 4 = 0
    ∧ xdr_padded_bytes b = b ++ List.replicate (xdr_pad_length b.length) 0
    ∧ (∀ x ∈ (xdr_padded_bytes b).drop b.length, x = 0) := by
  refine ⟨?_, ?_, ?_, rfl, ?_⟩
  · unfold xdr_pad_length; omega
  · unfold xdr_pad_length; omega
  · simp only [xdr_padded_bytes, List.length_append, List.length_replicate]
    unfold xdr_pad_length; omega
  · intro x hx
    rw [xdr_padded_bytes, List.drop_left] at hx
    exact List.eq_of_mem_replicate hx

/-- C9: the dirop3 sub-container built by `nfs3_lookup` with the 32-byte
directory handle `\xde\xad\xbe\xef * 8` and the 8-byte filename "testfile"
renders to exactly 48 bytes — 4-byte length prefix + 32 handle bytes, then
4-byte length prefix + 8 filename bytes, with zero padding in each part. -/
theorem C9_lookup_dirop_render :
    renderNode (nfs3_lookup (some defaultHandle) "testfile")
        (dirop3 "NFS3-LOOKUP_what" (some defaultHandle) "testfile")
      = some (beBytes 4 32 ++ defaultHandle ++ beBytes 4 8 ++
          utf8Bytes "testfile")
    ∧ (beBytes 4 32 ++ defaultHandle ++ beBytes 4 8 ++
        utf8Bytes "testfile").length = 48
    ∧ defaultHandle.length = 32
    ∧ (utf8Bytes "testfile").length = 8
    ∧ xdr_pad_length 32 = 0
    ∧ xdr_pad_length 8 = 0 := by
  decide

/-- C10: for every `auth_type` string other than "sys" (including "SYS" or
"unix"), `rpc_call_request` and `rpc_call_block` build the same tree as
with `auth_type = "none"` (an AUTH_NONE block, no error), so the rendered
message is byte-identical to the `auth_type = "none"` one. -/
theorem C10_auth_fallback (name : String) (program version procedure xid : Nat)
    (args : List Node) (auth_type : String) (h : auth_type ≠ "sys") :
    rpc_call_request name program version procedure args auth_type xid
      = rpc_call_request name program version procedure args "none" xid
    ∧ rpc_call_block name program version procedure args auth_type xid
      = rpc_call_block name program version procedure args "none" xid
    ∧ renderReq (rpc_call_request name program version procedure args
        auth_type xid)
      = renderReq (rpc_call_request name program version procedure args
        "none" xid) := by
  have ha : auth_children name auth_type = auth_children name "none" := by
    simp [auth_children, h]
  refine ⟨?_, ?_, ?_⟩
  · simp [rpc_call_request, ha]
  · simp [rpc_call_block, ha]
  · simp [rpc_call_request, ha]

/-- `fhandle3` at an explicit handle renders to length prefix + padded data,
and decoding per the length-prefix convention recovers the handle. -/
theorem fhandle3_render_decode (nm : String) (h : List Nat)
    (hlt : h.length < 2 ^ 32) :
    renderReq (fhandle3 nm (some h))
      = some (beBytes 4 h.length ++ xdr_padded_bytes h)
    ∧ xdrDecode (beBytes 4 h.length ++ xdr_padded_bytes h) = some h := by
  have hlen4 : (beBytes 4 h.length).length = 4 := beBytes_length 4 _
  constructor
  · simp [renderReq, fhandle3, renderNode, renderList]
  · have h256 : (256 : Nat) ^ 4 = 2 ^ 32 := by norm_num
    have hbe : beVal (beBytes 4 h.length) = h.length := by
      apply beVal_beBytes; omega
    rw [xdrDecode, if_pos (by simp [List.length_append, hlen4]),
      List.take_left' hlen4, List.drop_left' hlen4, hbe,
      xdr_padded_bytes, List.take_left' rfl]

/-- Fully evaluated render of `nfs3_write` with the default handle: record
mark, six header DWords, AUTH_NONE, fhandle3 (default 32-byte handle),
offset, count, stable, data-length prefix, padded payload. -/
theorem renderReq_nfs3_write (offset count stable : Nat) (data : List Nat) :
    renderReq (nfs3_write none offset count stable data)
      = some (beBytes 4 (0x80000000 |||
            (96 + data.length + (4 - data.length % 4) % 4))
          ++ beBytes 4 1 ++ beBytes 4 0 ++ beBytes 4 2 ++ beBytes 4 100003
          ++ beBytes 4 3 ++ beBytes 4 7
          ++ beBytes 4 0 ++ beBytes 4 0 ++ beBytes 4 0 ++ beBytes 4 0
          ++ beBytes 4 32 ++ defaultHandle
          ++ beBytes 8 offset ++ beBytes 4 count ++ beBytes 4 stable
          ++ beBytes 4 data.length ++ xdr_padded_bytes data) := by
  simp [nfs3_write, rpc_call_request, rpc_header, auth_children, auth_none,
    fhandle3, tcp_record_mark, renderReq, renderNode, renderList, findLen,
    findLenList, nodeLength, nodesLength, defaultHandle, xdr_padded_bytes,
    xdr_pad_length, applyMath, MSG_TYPE_CALL, RPC_VERSION, PROG_NFS, NFS_V3,
    NFSPROC3_WRITE, FILE_SYNC, AUTH_NONE, ← Nat.add_assoc]

/-- C4: for every `count` and every payload `data` whose length differs
from `count`, `nfs3_write` renders successfully to a message in which the
count field (after an 88-byte prefix) encodes `count` while the opaque data
length prefix (4 bytes later) encodes `data.length`: the builder performs
no cross-validation between the two. -/
theorem C4_write_count_independent (count : Nat) (data : List Nat)
    (hc : count < 2 ^ 32) (hd : data.length < 2 ^ 32)
    (_hne : data.length ≠ count) :
    ∃ pre mid post,
      renderReq (nfs3_write none 0 count FILE_SYNC data)
        = some (pre ++ beBytes 4 count ++ mid ++ beBytes 4 data.length ++ post)
      ∧ pre.length = 88
      ∧ mid.length = 4
      ∧ post = xdr_padded_bytes data
      ∧ beVal (beBytes 4 count) = count
      ∧ beVal (beBytes 4 data.length) = data.length := by
  have h256 : (256 : Nat) ^ 4 = 2 ^ 32 := by norm_num
  have hdl : defaultHandle.length = 32 := by decide
  refine ⟨beBytes 4 (0x80000000 |||
        (96 + data.length + (4 - data.length % 4) % 4))
      ++ beBytes 4 1 ++ beBytes 4 0 ++ beBytes 4 2 ++ beBytes 4 100003
      ++ beBytes 4 3 ++ beBytes 4 7 ++ beBytes 4 0 ++ beBytes 4 0
      ++ beBytes 4 0 ++ beBytes 4 0 ++ beBytes 4 32 ++ defaultHandle
      ++ beBytes 8 0, beBytes 4 FILE_SYNC, xdr_padded_bytes data,
      ?_, ?_, ?_, rfl, ?_, ?_⟩
  · rw [renderReq_nfs3_write]
  · simp [beBytes_length, hdl]
  · simp [beBytes_length]
  · exact beVal_beBytes 4 count (by omega)
  · exact beVal_beBytes 4 data.length (by omega)

/-- Witness for C4: count 10 against a 7-byte payload. -/
theorem C4_write_count_independent_witness :
    (([1, 2, 3, 4, 5, 6, 7] : List Nat).length ≠ 10)
    ∧ ∃ pre mid post,
        renderReq (nfs3_write none 0 10 FILE_SYNC [1, 2, 3, 4, 5, 6, 7])
          = some (pre ++ beBytes 4 10 ++ mid ++
              beBytes 4 ([1, 2, 3, 4, 5, 6, 7] : List Nat).length ++ post)
        ∧ pre.length = 88
        ∧ mid.length = 4
        ∧ post = xdr_padded_bytes [1, 2, 3, 4, 5, 6, 7]
        ∧ beVal (beBytes 4 10) = 10
        ∧ beVal (beBytes 4 ([1, 2, 3, 4, 5, 6, 7] : List Nat).length)
          = ([1, 2, 3, 4, 5, 6, 7] : List Nat).length := by
  refine ⟨by decide, ?_⟩
  exact C4_write_count_independent 10 [1, 2, 3, 4, 5, 6, 7] (by decide)
    (by decide) (by decide)

/-- C6: for every byte sequence `h` with length at most 64, rendering
`fhandle3` with handle data `h` and decoding per the XDR length-prefix
convention (4-byte big-endian length prefix, then that many bytes)
recovers exactly `h`, for every padding amount. -/
theorem C6_fhandle_roundtrip (nm : String) (h : List Nat)
    (hle : h.length ≤ 64) :
    renderReq (fhandle3 nm (some h))
      = some (beBytes 4 h.length ++ xdr_padded_bytes h)
    ∧ xdrDecode (beBytes 4 h.length ++ xdr_padded_bytes h) = some h :=
  fhandle3_render_decode nm h (by omega)

/-- Witness for C6 at the concrete 3-byte handle `[1, 2, 3]` (pad 1). -/
theorem C6_fhandle_roundtrip_witness :
    ([1, 2, 3] : List Nat).length ≤ 64
    ∧ xdrDecode (beBytes 4 ([1, 2, 3] : List Nat).length ++
        xdr_padded_bytes [1, 2, 3]) = some [1, 2, 3] := by
  refine ⟨by decide, ?_⟩
  exact (C6_fhandle_roundtrip "fh" [1, 2, 3] (by decide)).2

/-- C3 counterexample: a 65-byte handle (over the 64-byte cap) is accepted
by `fhandle3` at call time — it constructs a tree, renders, and the full
handle is recovered by decoding: the over-long handle IS silently encoded,
with no error and no truncation, refuting the claim that such a call
raises an error rather than constructing a tree. -/
theorem C3_overlong_handle_counterexample :
    (List.replicate 65 7 : List Nat).length = 65
    ∧ renderReq (fhandle3 "fh" (some (List.replicate 65 7)))
      = some (beBytes 4 65 ++ xdr_padded_bytes (List.replicate 65 7))
    ∧ xdrDecode (beBytes 4 65 ++ xdr_padded_bytes (List.replicate 65 7))
      = some (List.replicate 65 7) := by
  decide

/-- C3 amended: for every handle longer than 64 bytes, `fhandle3` succeeds
(no error is raised), the length prefix holds the true handle length, and
the handle bytes are encoded in full — neither truncated nor rejected. -/
theorem C3_overlong_handle_encoded (nm : String) (h : List Nat)
    (_hgt : 64 < h.length) (hlt : h.length < 2 ^ 32) :
    renderReq (fhandle3 nm (some h))
      = some (beBytes 4 h.length ++ xdr_padded_bytes h)
    ∧ xdrDecode (beBytes 4 h.length ++ xdr_padded_bytes h) = some h :=
  fhandle3_render_decode nm h hlt

/-- Witness for the amended C3 at a concrete 65-byte handle. -/
theorem C3_overlong_handle_encoded_witness :
    64 < (List.replicate 65 9 : List Nat).length
    ∧ xdrDecode (beBytes 4 (List.replicate 65 9 : List Nat).length ++
        xdr_padded_bytes (List.replicate 65 9)) = some (List.replicate 65 9) := by
  refine ⟨by decide, ?_⟩
  exact (C3_overlong_handle_encoded "fh" (List.replicate 65 9) (by decide)
    (by decide)).2

/-- C7: whenever an `rpc_call_request` renders, its RPC body (after the
4-byte record mark) begins with exactly six big-endian uint32 fields in
declaration order: xid, msg_type (0 = CALL), rpc_version (2), program,
version, procedure — rendering concatenates container children in
declaration order and never reorders them. -/
theorem C7_header_order (name : String) (program version procedure xid : Nat)
    (args : List Node) (auth_type : String) (out : List Nat)
    (hout : renderReq (rpc_call_request name program version procedure args
      auth_type xid) = some out) :
    (out.drop 4).take 24
      = beBytes 4 xid ++ beBytes 4 MSG_TYPE_CALL ++ beBytes 4 RPC_VERSION
        ++ beBytes 4 program ++ beBytes 4 version ++ beBytes 4 procedure := by
  rw [renderReq, renderNode_rpc_call_shape
    (rpc_call_request name program version procedure args auth_type xid)
    name program version procedure xid args auth_type _
    (findLen_rpc_message name program version procedure xid args auth_type)]
    at hout
  cases hrest : renderList
      (rpc_call_request name program version procedure args auth_type xid)
      (auth_children name auth_type ++ args) with
  | none => rw [hrest] at hout; simp at hout
  | some rest =>
    rw [hrest] at hout
    simp only [Option.some.injEq] at hout
    rw [← hout, List.drop_left' (beBytes_length 4 _),
      List.take_left' (by simp [beBytes_length])]

/-- Witness for C7 at the fully rendered NULL request. -/
theorem C7_header_order_witness :
    renderReq (rpc_call_request "NFS3-NULL" PROG_NFS NFS_V3 NFSPROC3_NULL []
        "none" 1)
      = some [128, 0, 0, 40, 0, 0, 0, 1, 0, 0, 0, 0, 0, 0, 0, 2,
          0, 1, 134, 163, 0, 0, 0, 3, 0, 0, 0, 0, 0, 0, 0, 0,
          0, 0, 0, 0, 0, 0, 0, 0, 0, 0, 0, 0]
    ∧ (([128, 0, 0, 40, 0, 0, 0, 1, 0, 0, 0, 0, 0, 0, 0, 2,
          0, 1, 134, 163, 0, 0, 0, 3, 0, 0, 0, 0, 0, 0, 0, 0,
          0, 0, 0, 0, 0, 0, 0, 0, 0, 0, 0, 0] : List Nat).drop 4).take 24
      = beBytes 4 1 ++ beBytes 4 MSG_TYPE_CALL ++ beBytes 4 RPC_VERSION
        ++ beBytes 4 PROG_NFS ++ beBytes 4 NFS_V3 ++ beBytes 4 NFSPROC3_NULL := by
  refine ⟨by decide, ?_⟩
  exact C7_header_order "NFS3-NULL" PROG_NFS NFS_V3 NFSPROC3_NULL 1 [] "none"
    [128, 0, 0, 40, 0, 0, 0, 1, 0, 0, 0, 0, 0, 0, 0, 2,
      0, 1, 134, 163, 0, 0, 0, 3, 0, 0, 0, 0, 0, 0, 0, 0,
      0, 0, 0, 0, 0, 0, 0, 0, 0, 0, 0, 0] (by decide)

/-- C8: for any two request trees of the same shape — same structure,
names, widths, Size targets and transforms, with leaf values replaced only
by values of the same byte length, so no container's rendered length
changes — every Size/SizeReference field, in particular the TCP record
mark, renders identically against both trees. -/
theorem C8_size_fields_stable (r r2 : Node) (h : sameShape r r2 = true)
    (nm bn : String) (w : Nat) (m : SizeMath) :
    renderNode r (Node.sizeRef nm bn w m)
      = renderNode r2 (Node.sizeRef nm bn w m)
    ∧ renderNode r (tcp_record_mark bn nm)
      = renderNode r2 (tcp_record_mark bn nm) := by
  have hf := sameShape_findLen bn r r2 h
  constructor <;> simp [renderNode, tcp_record_mark, hf]

/-- Witness for C8: the NULL request against the same tree with its xid
leaf changed from 1 to 2 — the record mark renders identically. -/
theorem C8_size_fields_stable_witness :
    sameShape nfs3_null
        (rpc_call_request "NFS3-NULL" PROG_NFS NFS_V3 NFSPROC3_NULL []
          "none" 2) = true
    ∧ renderNode nfs3_null
        (tcp_record_mark "NFS3-NULL_rpc_message" "NFS3-NULL_record_mark")
      = renderNode
        (rpc_call_request "NFS3-NULL" PROG_NFS NFS_V3 NFSPROC3_NULL []
          "none" 2)
        (tcp_record_mark "NFS3-NULL_rpc_message" "NFS3-NULL_record_mark") := by
  refine ⟨by decide, ?_⟩
  exact (C8_size_fields_stable nfs3_null
    (rpc_call_request "NFS3-NULL" PROG_NFS NFS_V3 NFSPROC3_NULL [] "none" 2)
    (by decide) "NFS3-NULL_record_mark" "NFS3-NULL_rpc_message" 4
    SizeMath.orLastFrag).2

/-- Witness for C10 at the concrete misspelling "SYS". -/
theorem C10_auth_fallback_witness :
    ("SYS" : String) ≠ "sys"
    ∧ rpc_call_request "X" 100003 3 0 [] "SYS" 1
      = rpc_call_request "X" 100003 3 0 [] "none" 1 := by
  refine ⟨by decide, ?_⟩
  exact (C10_auth_fallback "X" 100003 3 0 1 [] "SYS" (by decide)).1

end NfsFuzzer
